import Mathlib

/-!
Verification of the eagle language-practice backend (`api/main.go`).

The program keeps two tables, `sentences` and `answer_histories`, and exposes
three operations: `getRandomSentence`, `checkAnswer` and `reportSentence`.
We embed the database state and the three handlers as pure Lean functions and
prove the specified properties about them.  Timestamps are modelled as natural
numbers ordered like the ISO-8601 strings the database stores.
-/

namespace Eagle

/-- A row of the `sentences` table (struct `Sentence` in `main.go` together
with the columns the schema in `docs/spec.md` gives it). -/
structure Sentence where
  id : Nat
  japanese : String
  english : String
  page : String
  isReported : Bool
  createdAt : Nat
  updatedAt : Nat
deriving DecidableEq, Repr

/-- A row of the `answer_histories` table (`docs/spec.md` schema: id,
sentence_id, is_correct, incorrect_answer, created_at). -/
structure AnswerHistory where
  id : Nat
  sentenceId : Nat
  isCorrect : Bool
  incorrectAnswer : String
  createdAt : Nat
deriving DecidableEq, Repr

/-- The persistent state: the two tables. -/
structure DB where
  sentences : List Sentence
  histories : List AnswerHistory
deriving DecidableEq, Repr

/-- The only error the modelled handlers surface to a caller. -/
inductive ApiError where
  | notFound
deriving DecidableEq, Repr

/-- Whitespace as Go's `unicode.IsSpace` recognises it (the set used by
`strings.TrimSpace`): ASCII whitespace plus the Unicode space characters. -/
def isGoSpace (c : Char) : Bool :=
  c = ' ' || c = '\t' || c = '\n' || c = (Char.ofNat 11) || c = (Char.ofNat 12) ||
  c = '\r' || c = (Char.ofNat 0x85) || c = (Char.ofNat 0xa0) ||
  c = (Char.ofNat 0x1680) || ((Char.ofNat 0x2000) ≤ c && c ≤ (Char.ofNat 0x200a)) ||
  c = (Char.ofNat 0x2028) || c = (Char.ofNat 0x2029) || c = (Char.ofNat 0x202f) ||
  c = (Char.ofNat 0x205f) || c = (Char.ofNat 0x3000)

/-- Model of `strings.TrimSpace` on a character list: drop whitespace from both ends. -/
def trimSpaceList (cs : List Char) : List Char :=
  ((cs.dropWhile isGoSpace).reverse.dropWhile isGoSpace).reverse

/-- Case folding of one character as `strings.ToLower` performs it on the
ASCII range (upper-case letters map to lower case, everything else in this
program's data is unchanged). -/
def lowerChar (c : Char) : Char :=
  if 'A' ≤ c && c ≤ 'Z' then Char.ofNat (c.toNat + 32) else c

/-- Composition `strings.TrimSpace(strings.ToLower(s))` — the normalization `checkAnswer`
applies to both the submitted answer and the stored `english` field. -/
def normalize (s : String) : String :=
  String.mk (trimSpaceList (s.data.map lowerChar))

/-- Aggregate `SUM(CASE WHEN ah.is_correct = 1 THEN 1 ELSE 0 END)` for one sentence:
the number of its history rows with `is_correct = true`. -/
def correctCount (db : DB) (sid : Nat) : Nat :=
  (db.histories.filter (fun h => h.sentenceId == sid && h.isCorrect)).length

/-- Aggregate `SUM(CASE WHEN ah.is_correct = 0 THEN 1 ELSE 0 END)` for one sentence:
the number of its history rows with `is_correct = false`. -/
def incorrectCount (db : DB) (sid : Nat) : Nat :=
  (db.histories.filter (fun h => h.sentenceId == sid && !h.isCorrect)).length

/-- The `WHERE s.is_reported = false ... HAVING correct_count - incorrect_count < 2`
filter of the selection query.  A sentence with no history rows contributes a
single all-NULL joined row, so both sums are 0 and the sentence passes. -/
def isEligible (db : DB) (s : Sentence) : Bool :=
  !s.isReported && ((correctCount db s.id : Int) - (incorrectCount db s.id : Int) < 2)

/-- The result set of the selection query: the eligible sentences. -/
def eligibleSentences (db : DB) : List Sentence :=
  db.sentences.filter (isEligible db)

/-- Handler `getRandomSentence`: run the aggregate query, 404 when the result set is
empty, otherwise return the row at `rand.Intn(len(sentences))`.  The random
draw is modelled by the index argument, reduced mod the pool size exactly as
`Intn` bounds it. -/
def getRandomSentence (db : DB) (randomIndex : Nat) : Except ApiError Sentence :=
  let pool := eligibleSentences db
  if h : pool.length = 0 then
    .error .notFound
  else
    .ok (pool.get ⟨randomIndex % pool.length, Nat.mod_lt _ (Nat.pos_of_ne_zero h)⟩)

/-- One element of the `histories` array in a `CheckAnswerResponse`
(struct `AnswerHistory` in `main.go`: only id, incorrect_answer, created_at
are serialised). -/
structure HistoryView where
  id : Nat
  incorrectAnswer : String
  createdAt : Nat
deriving DecidableEq, Repr

/-- Projection of a stored history row onto the fields `checkAnswer` returns. -/
def historyView (h : AnswerHistory) : HistoryView :=
  ⟨h.id, h.incorrectAnswer, h.createdAt⟩

/-- Struct `CheckAnswerResponse` in `main.go`. -/
structure CheckAnswerResponse where
  isCorrect : Bool
  correctAnswer : String
  histories : List HistoryView
deriving DecidableEq, Repr

/-- The `ORDER BY ah.created_at DESC` relation: `a` was created no earlier
than `b`. -/
def laterEq (a b : AnswerHistory) : Prop :=
  b.createdAt ≤ a.createdAt

instance : DecidableRel laterEq :=
  fun a b => Nat.decLe b.createdAt a.createdAt

instance : IsTotal AnswerHistory laterEq :=
  ⟨fun a b => (Nat.le_total b.createdAt a.createdAt).elim Or.inl Or.inr⟩

instance : IsTrans AnswerHistory laterEq :=
  ⟨fun _ _ _ hab hbc => Nat.le_trans hbc hab⟩

/-- The database's `ORDER BY ah.created_at DESC` on a result set. -/
def sortDesc (l : List AnswerHistory) : List AnswerHistory :=
  List.insertionSort laterEq l

/-- The wrong-answer rows of one sentence, as the `LEFT JOIN ... AND
ah.is_correct = false` clause of `checkAnswer`'s query joins them. -/
def wrongRows (db : DB) (sid : Nat) : List AnswerHistory :=
  db.histories.filter (fun h => h.sentenceId == sid && !h.isCorrect)

/-- Handler `checkAnswer`: look the sentence up together with its wrong-answer rows
(most recent first; rows whose `COALESCE`d id is 0 — the all-NULL row of a
sentence with no wrong answers — are skipped by the `historyID > 0` guard),
404 when no row comes back, compare the normalized answers, and insert one
history row.  `newId`/`now` stand for the id and timestamp the database
assigns to the insert; `insertOk` is whether the `INSERT` succeeds — on
failure the error is only logged and the response is returned unchanged. -/
def checkAnswer (db : DB) (sentenceId : Nat) (userAnswer : String)
    (newId now : Nat) (insertOk : Bool) :
    Except ApiError CheckAnswerResponse × DB :=
  match db.sentences.find? (fun s => s.id == sentenceId) with
  | none => (.error .notFound, db)
  | some s =>
    let views := ((sortDesc (wrongRows db sentenceId)).filter
      (fun h => 0 < h.id)).map historyView
    let isCorrect := normalize userAnswer == normalize s.english
    let incorrectAnswer := if isCorrect then "" else userAnswer
    let db' :=
      if insertOk then
        { db with histories :=
            db.histories ++ [⟨newId, sentenceId, isCorrect, incorrectAnswer, now⟩] }
      else db
    (.ok ⟨isCorrect, s.english, views⟩, db')

/-- Handler `reportSentence`: `UPDATE sentences SET is_reported = true WHERE id = ?`,
always answering 204.  Per the schema in `docs/spec.md`, `updated_at` carries
`ON UPDATE CURRENT_TIMESTAMP`, which MySQL fires only when some column value
actually changes; a row that is already reported is stored back unchanged. -/
def reportSentence (db : DB) (sentenceId : Nat) (now : Nat) :
    Except ApiError Unit × DB :=
  (.ok (), { db with sentences := db.sentences.map (fun s =>
    if s.id = sentenceId then
      if s.isReported then s
      else { s with isReported := true, updatedAt := now }
    else s) })

/-- One inbound request, with the environment-chosen values (random index,
assigned id, clock, insert outcome) packaged alongside it. -/
inductive Op where
  | randomOp (randomIndex : Nat)
  | checkOp (sentenceId : Nat) (userAnswer : String) (newId now : Nat) (insertOk : Bool)
  | reportOp (sentenceId : Nat) (now : Nat)
deriving DecidableEq, Repr

/-- The state transition each operation performs. -/
def applyOp (db : DB) : Op → DB
  | .randomOp _ => db
  | .checkOp sid ua newId now insertOk => (checkAnswer db sid ua newId now insertOk).2
  | .reportOp sid now => (reportSentence db sid now).2

/-- Run a sequence of operations. -/
def applyOps (db : DB) (ops : List Op) : DB :=
  ops.foldl applyOp db

/-! Sample data, mirroring the seed rows in `main.go` and `docs/spec.md`:
used to instantiate the theorems at concrete states. -/

/-- Seed sentence 1 of `main.go`. -/
def sampleS1 : Sentence :=
  ⟨1, "時間がありません。", "I don't have time.", "12", false, 10, 10⟩

/-- Seed sentence 2 of `main.go`. -/
def sampleS2 : Sentence :=
  ⟨2, "今日は暑いです。", "It's hot today.", "15", false, 20, 20⟩

/-- A wrong-answer history row for sentence 1 (cf. the mock data). -/
def sampleH1 : AnswerHistory := ⟨1001, 1, false, "I have no time.", 30⟩

/-- A later wrong-answer history row for sentence 1. -/
def sampleH2 : AnswerHistory := ⟨1020, 1, false, "There is no time.", 50⟩

/-- A correct-answer history row for sentence 1. -/
def sampleH3 : AnswerHistory := ⟨1050, 1, true, "", 40⟩

/-- A sample database state with two sentences and three history rows. -/
def sampleDB : DB := ⟨[sampleS1, sampleS2], [sampleH1, sampleH2, sampleH3]⟩

/-! Helper lemmas about `checkAnswer`. -/

/-- The handler `checkAnswer` never touches the `sentences` table. -/
theorem checkAnswer_sentences (db : DB) (sid : Nat) (ua : String)
    (newId now : Nat) (insertOk : Bool) :
    (checkAnswer db sid ua newId now insertOk).2.sentences = db.sentences := by
  rcases h : db.sentences.find? (fun s => s.id == sid) with _ | s
  · simp [checkAnswer, h]
  · cases insertOk <;> simp [checkAnswer, h]

/-- On a found sentence, the response `checkAnswer` builds, spelled out. -/
theorem checkAnswer_ok (db : DB) (sid : Nat) (ua : String)
    (newId now : Nat) (insertOk : Bool) (s : Sentence)
    (hfind : db.sentences.find? (fun t => t.id == sid) = some s) :
    (checkAnswer db sid ua newId now insertOk).1 =
      .ok ⟨normalize ua == normalize s.english, s.english,
        ((sortDesc (wrongRows db sid)).filter (fun h => 0 < h.id)).map historyView⟩ := by
  simp [checkAnswer, hfind]

/-- On a found sentence with a successful insert, the new history table. -/
theorem checkAnswer_histories_insertOk (db : DB) (sid : Nat) (ua : String)
    (newId now : Nat) (s : Sentence)
    (hfind : db.sentences.find? (fun t => t.id == sid) = some s) :
    (checkAnswer db sid ua newId now true).2.histories =
      db.histories ++ [⟨newId, sid, normalize ua == normalize s.english,
        if normalize ua == normalize s.english then "" else ua, now⟩] := by
  simp [checkAnswer, hfind]

/-- When the insert fails, the state is unchanged. -/
theorem checkAnswer_state_insertFail (db : DB) (sid : Nat) (ua : String)
    (newId now : Nat) :
    (checkAnswer db sid ua newId now false).2 = db := by
  rcases h : db.sentences.find? (fun s => s.id == sid) with _ | s <;>
    simp [checkAnswer, h]

/-- When no stored sentence has the requested id, `checkAnswer` finds none. -/
theorem find?_eq_none_of_no_id (db : DB) (sid : Nat)
    (h : ∀ s ∈ db.sentences, s.id ≠ sid) :
    db.sentences.find? (fun t => t.id == sid) = none := by
  refine List.find?_eq_none.mpr (fun s hs => ?_)
  simpa using h s hs

/-- C3: Every CheckAnswer call on an existing sentence (with the insert
succeeding) persists exactly one new AnswerHistory row — appended to the
table, so repeated identical submissions create repeated rows — whose
`incorrect_answer` is the empty string when the verdict is correct and the
verbatim, non-normalized submitted input when it is not. -/
theorem checkAnswer_persists_one_row (db : DB) (sid : Nat) (ua : String)
    (newId now : Nat) (s : Sentence)
    (hfind : db.sentences.find? (fun t => t.id == sid) = some s) :
    ∃ r, (checkAnswer db sid ua newId now true).1 = .ok r ∧
      (checkAnswer db sid ua newId now true).2.histories =
        db.histories ++ [⟨newId, sid, r.isCorrect,
          if r.isCorrect then "" else ua, now⟩] := by
  exact ⟨_, checkAnswer_ok db sid ua newId now true s hfind,
    checkAnswer_histories_insertOk db sid ua newId now s hfind⟩

/-- Witness for C3: a wrong submission against sentence 1 appends exactly one
row carrying the verbatim text `"I have no time."`. -/
theorem checkAnswer_persists_one_row_witness :
    (sampleDB.sentences.find? (fun t => t.id == 1) = some sampleS1) ∧
    (∃ r, (checkAnswer sampleDB 1 "I have no time." 2000 100 true).1 = .ok r ∧
      (checkAnswer sampleDB 1 "I have no time." 2000 100 true).2.histories =
        sampleDB.histories ++ [⟨2000, 1, r.isCorrect,
          if r.isCorrect then "" else "I have no time.", 100⟩]) :=
  ⟨rfl, checkAnswer_persists_one_row sampleDB 1 "I have no time." 2000 100
    sampleS1 rfl⟩

/-- C6: CheckAnswer on a `sentence_id` that references no existing sentence
fails with NotFound and leaves the stored state unchanged (no row inserted). -/
theorem checkAnswer_unknown_id_notFound (db : DB) (sid : Nat) (ua : String)
    (newId now : Nat) (insertOk : Bool)
    (hno : ∀ s ∈ db.sentences, s.id ≠ sid) :
    (checkAnswer db sid ua newId now insertOk).1 = .error .notFound ∧
    (checkAnswer db sid ua newId now insertOk).2 = db := by
  have h := find?_eq_none_of_no_id db sid hno
  constructor <;> simp [checkAnswer, h]

/-- Witness for C6: the spec's scenario `sentence_id = 999999` against the
sample state. -/
theorem checkAnswer_unknown_id_notFound_witness :
    (∀ s ∈ sampleDB.sentences, s.id ≠ 999999) ∧
    ((checkAnswer sampleDB 999999 "x" 2000 100 true).1 = .error .notFound ∧
     (checkAnswer sampleDB 999999 "x" 2000 100 true).2 = sampleDB) :=
  ⟨by decide, checkAnswer_unknown_id_notFound sampleDB 999999 "x" 2000 100 true
    (by decide)⟩

/-- C8: If the AnswerHistory insert fails, the request still succeeds: the
response (verdict, correct answer, histories) equals the one a successful
insert produces, and the stored state is simply left unchanged. -/
theorem checkAnswer_insert_failure_swallowed (db : DB) (sid : Nat)
    (ua : String) (newId now : Nat) :
    (checkAnswer db sid ua newId now false).1 =
      (checkAnswer db sid ua newId now true).1 ∧
    (checkAnswer db sid ua newId now false).2 = db := by
  refine ⟨?_, checkAnswer_state_insertFail db sid ua newId now⟩
  rcases h : db.sentences.find? (fun s => s.id == sid) with _ | s <;>
    simp [checkAnswer, h]

/-- C10: CheckAnswer on an existing sentence with no wrong-answer history
rows (no history at all, or only correct-answer rows) does not fail: it
returns the verdict and an empty histories list. -/
theorem checkAnswer_no_wrong_history_ok (db : DB) (sid : Nat) (ua : String)
    (newId now : Nat) (insertOk : Bool) (s : Sentence)
    (hfind : db.sentences.find? (fun t => t.id == sid) = some s)
    (hnowrong : ∀ h ∈ db.histories, h.sentenceId = sid → h.isCorrect = true) :
    (checkAnswer db sid ua newId now insertOk).1 =
      .ok ⟨normalize ua == normalize s.english, s.english, []⟩ := by
  have hwr : wrongRows db sid = [] := by
    refine List.filter_eq_nil_iff.mpr (fun h hm => ?_)
    by_cases hsid : h.sentenceId = sid
    · simp [hsid, hnowrong h hm hsid]
    · simp [hsid]
  rw [checkAnswer_ok db sid ua newId now insertOk s hfind]
  simp [hwr, sortDesc]

/-- Witness for C10: sentence 2 exists in the sample state and has no history
rows at all; the call answers 200 with an empty histories array. -/
theorem checkAnswer_no_wrong_history_ok_witness :
    (sampleDB.sentences.find? (fun t => t.id == 2) = some sampleS2) ∧
    (∀ h ∈ sampleDB.histories, h.sentenceId = 2 → h.isCorrect = true) ∧
    (checkAnswer sampleDB 2 "it's hot today." 2000 100 true).1 =
      .ok ⟨normalize "it's hot today." == normalize sampleS2.english,
        sampleS2.english, []⟩ :=
  ⟨rfl, by decide, checkAnswer_no_wrong_history_ok sampleDB 2 "it's hot today."
    2000 100 true sampleS2 rfl (by decide)⟩

/-- C4 counterexample: submitting the empty string against sentence 1 (whose
answer is non-empty) is judged incorrect, yet the row the call creates stores
`incorrect_answer = ""` — so "non-empty iff `is_correct` is false" fails on a
row the system itself created. -/
theorem answerHistory_nonempty_iff_incorrect_cex :
    ¬ ∀ h ∈ (checkAnswer ⟨[sampleS1], []⟩ 1 "" 10 5 true).2.histories,
      (h.incorrectAnswer ≠ "" ↔ h.isCorrect = false) := by
  decide

/-- C4 amended: the row CheckAnswer creates stores the empty string when the
verdict is correct and the verbatim input when it is not; hence its
`incorrect_answer` is non-empty iff `is_correct` is false, provided the
submitted input is non-empty (an empty incorrect submission violates the
original biconditional). -/
theorem answerHistory_nonempty_iff_incorrect (db : DB) (sid : Nat)
    (ua : String) (newId now : Nat) (s : Sentence)
    (hfind : db.sentences.find? (fun t => t.id == sid) = some s)
    (hua : ua ≠ "") :
    ∃ row, (checkAnswer db sid ua newId now true).2.histories =
        db.histories ++ [row] ∧
      (row.isCorrect = true → row.incorrectAnswer = "") ∧
      (row.isCorrect = false → row.incorrectAnswer = ua) ∧
      (row.incorrectAnswer ≠ "" ↔ row.isCorrect = false) := by
  refine ⟨_, checkAnswer_histories_insertOk db sid ua newId now s hfind, ?_, ?_, ?_⟩
  · intro hc
    simp only at hc
    simp [hc]
  · intro hc
    simp only at hc
    simp [hc]
  · by_cases hc : normalize ua == normalize s.english <;> simp [hc, hua]

/-- Witness for C4 (amended): a concrete wrong, non-empty submission. -/
theorem answerHistory_nonempty_iff_incorrect_witness :
    (sampleDB.sentences.find? (fun t => t.id == 1) = some sampleS1) ∧
    ("I have no time." ≠ "") ∧
    (∃ row, (checkAnswer sampleDB 1 "I have no time." 2000 100 true).2.histories =
        sampleDB.histories ++ [row] ∧
      (row.isCorrect = true → row.incorrectAnswer = "") ∧
      (row.isCorrect = false → row.incorrectAnswer = "I have no time.") ∧
      (row.incorrectAnswer ≠ "" ↔ row.isCorrect = false)) :=
  ⟨rfl, by decide, answerHistory_nonempty_iff_incorrect sampleDB 1
    "I have no time." 2000 100 sampleS1 rfl (by decide)⟩

/-- C5: the returned `histories` are exactly the wrong-answer rows of the
sentence that existed before the call (a permutation of their projections),
sorted most-recent-first by creation time; correct-answer rows never appear,
and — ids being assigned increasingly — the row this very call inserts is
absent from the returned list. -/
theorem checkAnswer_histories_prior_wrong_desc (db : DB) (sid : Nat)
    (ua : String) (newId now : Nat) (insertOk : Bool) (s : Sentence)
    (hfind : db.sentences.find? (fun t => t.id == sid) = some s)
    (hpos : ∀ h ∈ db.histories, 0 < h.id)
    (hfresh : ∀ h ∈ db.histories, h.id < newId) :
    ∃ r, (checkAnswer db sid ua newId now insertOk).1 = .ok r ∧
      r.histories.Perm ((wrongRows db sid).map historyView) ∧
      r.histories.Pairwise (fun a b => b.createdAt ≤ a.createdAt) ∧
      ∀ v ∈ r.histories, v.id ≠ newId := by
  refine ⟨_, checkAnswer_ok db sid ua newId now insertOk s hfind, ?_, ?_, ?_⟩
  all_goals
    have hsub : ∀ h ∈ sortDesc (wrongRows db sid), h ∈ db.histories := by
      intro h hm
      have : h ∈ wrongRows db sid := by
        simpa [sortDesc] using hm
      exact (List.mem_filter.mp this).1
    have hall : (sortDesc (wrongRows db sid)).filter (fun h => 0 < h.id) =
        sortDesc (wrongRows db sid) := by
      refine List.filter_eq_self.mpr (fun h hm => ?_)
      simpa using hpos h (hsub h hm)
  · rw [hall]
    exact ((List.perm_insertionSort laterEq (wrongRows db sid)).map historyView)
  · rw [hall]
    refine List.Pairwise.map historyView (fun a b hab => hab)
      (List.sorted_insertionSort laterEq (wrongRows db sid))
  · rw [hall]
    intro v hv
    obtain ⟨h, hm, rfl⟩ := List.mem_map.mp hv
    exact Nat.ne_of_lt (hfresh h (hsub h hm))

/-- Witness for C5: the sample state holds two wrong rows and one correct row
for sentence 1; the call returns the two wrong ones, newest first. -/
theorem checkAnswer_histories_prior_wrong_desc_witness :
    (sampleDB.sentences.find? (fun t => t.id == 1) = some sampleS1) ∧
    (∀ h ∈ sampleDB.histories, 0 < h.id) ∧
    (∀ h ∈ sampleDB.histories, h.id < 2000) ∧
    (∃ r, (checkAnswer sampleDB 1 "x" 2000 100 true).1 = .ok r ∧
      r.histories.Perm ((wrongRows sampleDB 1).map historyView) ∧
      r.histories.Pairwise (fun a b => b.createdAt ≤ a.createdAt) ∧
      ∀ v ∈ r.histories, v.id ≠ 2000) :=
  ⟨rfl, by decide, by decide, checkAnswer_histories_prior_wrong_desc sampleDB 1
    "x" 2000 100 true sampleS1 rfl (by decide) (by decide)⟩

/-! Helper lemmas about `getRandomSentence`. -/

/-- The 404 branch is taken exactly when the eligible pool is empty. -/
theorem getRandomSentence_error_iff (db : DB) (i : Nat) :
    getRandomSentence db i = .error .notFound ↔ eligibleSentences db = [] := by
  unfold getRandomSentence
  by_cases h : (eligibleSentences db).length = 0
  · simp [h, List.length_eq_zero.mp h]
  · simp only [h, dite_false]
    constructor
    · intro hc
      exact absurd hc (by simp)
    · intro hc
      exact absurd (hc ▸ h) (by simp)

/-- A successfully returned sentence comes from the eligible pool. -/
theorem getRandomSentence_ok_mem (db : DB) (i : Nat) (s : Sentence)
    (h : getRandomSentence db i = .ok s) : s ∈ eligibleSentences db := by
  unfold getRandomSentence at h
  by_cases h0 : (eligibleSentences db).length = 0
  · simp [h0] at h
  · rw [dif_neg h0] at h
    have h2 := Except.ok.inj h
    rw [← h2]
    exact List.get_mem _ _ _

/-- Unfolding of the eligibility test into its two conjuncts. -/
theorem isEligible_iff (db : DB) (s : Sentence) :
    isEligible db s = true ↔ s.isReported = false ∧
      (correctCount db s.id : Int) - (incorrectCount db s.id : Int) < 2 := by
  simp [isEligible, Bool.and_eq_true, decide_eq_true_iff, Bool.not_eq_true']

/-- A sentence with no history rows has both counts equal to zero. -/
theorem counts_zero_of_no_history (db : DB) (sid : Nat)
    (hnone : ∀ h ∈ db.histories, h.sentenceId ≠ sid) :
    correctCount db sid = 0 ∧ incorrectCount db sid = 0 := by
  constructor <;>
  · simp only [correctCount, incorrectCount, List.length_eq_zero]
    refine List.filter_eq_nil_iff.mpr (fun h hm => ?_)
    simp [hnone h hm]

/-- C1: GetRandomSentence fails with NotFound exactly when the eligible pool
is empty; a returned sentence is always drawn from the eligible pool, hence
stored, unreported and of mastery score `< 2`; and a stored sentence with no
history rows has both counts 0 and — if unreported — is in the pool. -/
theorem getRandomSentence_spec :
    (∀ db i, getRandomSentence db i = .error .notFound ↔
      eligibleSentences db = []) ∧
    (∀ db i s, getRandomSentence db i = .ok s →
      s ∈ eligibleSentences db ∧ s ∈ db.sentences ∧ s.isReported = false ∧
      (correctCount db s.id : Int) - (incorrectCount db s.id : Int) < 2) ∧
    (∀ db s, s ∈ db.sentences → (∀ h ∈ db.histories, h.sentenceId ≠ s.id) →
      correctCount db s.id = 0 ∧ incorrectCount db s.id = 0 ∧
      (s.isReported = false → s ∈ eligibleSentences db)) := by
  refine ⟨getRandomSentence_error_iff, fun db i s h => ?_, fun db s hs hnone => ?_⟩
  · have hmem := getRandomSentence_ok_mem db i s h
    have helig := (List.mem_filter.mp hmem).2
    obtain ⟨h1, h2⟩ := (isEligible_iff db s).mp helig
    exact ⟨hmem, (List.mem_filter.mp hmem).1, h1, h2⟩
  · obtain ⟨hc, hi⟩ := counts_zero_of_no_history db s.id hnone
    refine ⟨hc, hi, fun hnr => ?_⟩
    refine List.mem_filter.mpr ⟨hs, (isEligible_iff db s).mpr ⟨hnr, ?_⟩⟩
    simp [hc, hi]

/-- Witness for C1: on the empty state the call 404s; on the sample state it
returns sentence 1, which is eligible; sentence 2 has no history and is in
the pool. -/
theorem getRandomSentence_spec_witness :
    (getRandomSentence ⟨[], []⟩ 0 = .error .notFound ↔
      eligibleSentences ⟨[], []⟩ = []) ∧
    (getRandomSentence sampleDB 0 = .ok sampleS1 ∧
      (sampleS1 ∈ eligibleSentences sampleDB ∧ sampleS1 ∈ sampleDB.sentences ∧
        sampleS1.isReported = false ∧
        (correctCount sampleDB sampleS1.id : Int) -
          (incorrectCount sampleDB sampleS1.id : Int) < 2)) ∧
    ((∀ h ∈ sampleDB.histories, h.sentenceId ≠ sampleS2.id) ∧
      (correctCount sampleDB sampleS2.id = 0 ∧
        incorrectCount sampleDB sampleS2.id = 0 ∧
        (sampleS2.isReported = false → sampleS2 ∈ eligibleSentences sampleDB))) :=
  ⟨getRandomSentence_spec.1 ⟨[], []⟩ 0,
    ⟨rfl, getRandomSentence_spec.2.1 sampleDB 0 sampleS1 rfl⟩,
    ⟨by decide, getRandomSentence_spec.2.2 sampleDB sampleS2 (by decide)
      (by decide)⟩⟩

/-! Reporting: permanence of the flag and the frame of the update. -/

/-- Every stored sentence carrying this id has its reported flag set. -/
def reportedIn (db : DB) (sid : Nat) : Prop :=
  ∀ s ∈ db.sentences, s.id = sid → s.isReported = true

/-- Right after `reportSentence sid`, every sentence with that id is flagged. -/
theorem reportedIn_reportSentence (db : DB) (sid now : Nat) :
    reportedIn (reportSentence db sid now).2 sid := by
  intro t ht hid
  simp only [reportSentence] at ht
  obtain ⟨s, hs, rfl⟩ := List.mem_map.mp ht
  by_cases h1 : s.id = sid
  · by_cases h2 : s.isReported
    · simp only [h1, h2, if_true]
    · simp [h1, h2]
  · simp only [h1, if_false] at hid

/-- No operation ever clears a reported flag. -/
theorem reportedIn_applyOp (db : DB) (sid : Nat) (op : Op)
    (h : reportedIn db sid) : reportedIn (applyOp db op) sid := by
  cases op with
  | randomOp i => exact h
  | checkOp sid' ua newId now insertOk =>
    intro t ht hid
    rw [applyOp, checkAnswer_sentences] at ht
    exact h t ht hid
  | reportOp sid' now =>
    intro t ht hid
    simp only [applyOp, reportSentence] at ht
    obtain ⟨s, hs, rfl⟩ := List.mem_map.mp ht
    by_cases h1 : s.id = sid'
    · by_cases h2 : s.isReported
      · simp only [h1, h2, if_true] at hid ⊢
      · simp [h1, h2]
    · simp only [h1, if_false] at hid ⊢
      exact h s hs hid

/-- No sequence of operations ever clears a reported flag. -/
theorem reportedIn_applyOps (ops : List Op) (db : DB) (sid : Nat)
    (h : reportedIn db sid) : reportedIn (applyOps db ops) sid := by
  induction ops generalizing db with
  | nil => exact h
  | cons op ops ih => exact ih (applyOp db op) (reportedIn_applyOp db sid op h)

/-- C7: ReportSentence always answers success and flags every sentence of the
given id — a no-op when the id is unknown or already flagged — and since no
operation clears the flag, GetRandomSentence never returns that id in any
state reachable afterwards. -/
theorem reportSentence_permanent (db : DB) (sid now : Nat) :
    (reportSentence db sid now).1 = .ok () ∧
    reportedIn (reportSentence db sid now).2 sid ∧
    ∀ ops i s,
      getRandomSentence (applyOps (reportSentence db sid now).2 ops) i = .ok s →
      s.id ≠ sid := by
  refine ⟨rfl, reportedIn_reportSentence db sid now, fun ops i s hok hid => ?_⟩
  have hrep := reportedIn_applyOps ops _ sid (reportedIn_reportSentence db sid now)
  have hmem := getRandomSentence_ok_mem _ i s hok
  have helig := (isEligible_iff _ s).mp (List.mem_filter.mp hmem).2
  have := hrep s (List.mem_filter.mp hmem).1 hid
  rw [helig.1] at this
  exact Bool.false_ne_true this

/-- Witness for C7: report sentence 1 of the sample state, then answer a
question about sentence 2; the next random draw yields sentence 2, not 1. -/
theorem reportSentence_permanent_witness :
    (getRandomSentence
        (applyOps (reportSentence sampleDB 1 55).2 [.checkOp 2 "x" 2000 60 true]) 0 =
      .ok { sampleS2 with } ) ∧
    ({ sampleS2 with } : Sentence).id ≠ 1 :=
  ⟨rfl, (reportSentence_permanent sampleDB 1 55).2.2
    [.checkOp 2 "x" 2000 60 true] 0 { sampleS2 with } rfl⟩

/-- The already-reported third seed sentence, used to exhibit that a repeated
report leaves `updated_at` alone. -/
def sampleS3 : Sentence :=
  ⟨3, "明日は雨が降るでしょう。", "It will rain tomorrow.", "23", true, 5, 5⟩

/-- C9 counterexample: reporting the already-reported sentence 3 at time 99
changes no column value, so MySQL's `ON UPDATE CURRENT_TIMESTAMP` does not
fire and `updated_at` stays 5 — the claim's unconditional "refreshed on any
ReportSentence of an existing sentence" fails here. -/
theorem reportSentence_updatedAt_cex :
    ¬ ∀ s ∈ (reportSentence ⟨[sampleS3], []⟩ 3 99).2.sentences,
      s.id = 3 → s.updatedAt = 99 := by
  decide

/-- C9 amended: after ReportSentence on an existing sentence that was not yet
reported, the stored row keeps its id, japanese, english, page and created_at,
gets `is_reported = true`, and has `updated_at` refreshed to the operation's
time; the history table is untouched; an already-reported row is stored back
entirely unchanged. -/
theorem reportSentence_frame (db : DB) (sid now : Nat) (s : Sentence)
    (hs : s ∈ db.sentences) (hid : s.id = sid) (hnr : s.isReported = false) :
    (∃ t, t ∈ (reportSentence db sid now).2.sentences ∧
      t.id = s.id ∧ t.japanese = s.japanese ∧ t.english = s.english ∧
      t.page = s.page ∧ t.createdAt = s.createdAt ∧
      t.isReported = true ∧ t.updatedAt = now) ∧
    (reportSentence db sid now).2.histories = db.histories ∧
    (∀ t ∈ db.sentences, t.isReported = true →
      t ∈ (reportSentence db sid now).2.sentences) := by
  refine ⟨⟨{ s with isReported := true, updatedAt := now }, ?_,
      rfl, rfl, rfl, rfl, rfl, rfl, rfl⟩, rfl, fun t ht hrep => ?_⟩
  · have := List.mem_map_of_mem (fun u : Sentence =>
      if u.id = sid then (if u.isReported then u
        else { u with isReported := true, updatedAt := now }) else u) hs
    simpa [reportSentence, hid, hnr] using this
  · have := List.mem_map_of_mem (fun u : Sentence =>
      if u.id = sid then (if u.isReported then u
        else { u with isReported := true, updatedAt := now }) else u) ht
    by_cases h1 : t.id = sid
    · simpa [reportSentence, h1, hrep] using this
    · simpa [reportSentence, h1] using this

/-- Witness for C9 (amended): reporting the unreported sample sentence 1 at
time 55. -/
theorem reportSentence_frame_witness :
    (sampleS1 ∈ sampleDB.sentences ∧ sampleS1.id = 1 ∧
      sampleS1.isReported = false) ∧
    ((∃ t, t ∈ (reportSentence sampleDB 1 55).2.sentences ∧
      t.id = sampleS1.id ∧ t.japanese = sampleS1.japanese ∧
      t.english = sampleS1.english ∧ t.page = sampleS1.page ∧
      t.createdAt = sampleS1.createdAt ∧
      t.isReported = true ∧ t.updatedAt = 55) ∧
    (reportSentence sampleDB 1 55).2.histories = sampleDB.histories ∧
    (∀ t ∈ sampleDB.sentences, t.isReported = true →
      t ∈ (reportSentence sampleDB 1 55).2.sentences)) :=
  ⟨⟨by decide, rfl, rfl⟩,
    reportSentence_frame sampleDB 1 55 sampleS1 (by decide) rfl rfl⟩

end Eagle
